import Mathlib

/-!
Verification of the stock-momentum ranking pipeline (src/app.py).

The core of the program is two stages:

* `calculate_metrics` (app.py, `calculate_metrics`): for each history record
  it takes the trailing `21 * params.momentum` observations, skips the
  ticker when fewer exist, computes
  `momentum = close.iloc[-1] / close.iloc[0] - 1` over that trailing window,
  then takes the trailing `21 * params.moving_average` observations, skips
  the ticker when fewer exist, and computes the rolling mean of the trailing
  window as the moving average.  One metric row is appended per surviving
  ticker; a per-ticker exception skips only that ticker.

* the ranker inside `main_app` (app.py):
  `metrics_filter = metrics_df[metrics_df.current_price > metrics_df.moving_average]`,
  `metrics_sorted = metrics_filter.sort_values` by momentum, descending,
  `top_assets = metrics_sorted.head(wallet_size)`.

Prices are embedded as rationals (the Python floats carry exact decimal
fixture values in all testable properties of the spec); dates are embedded
as naturals in chronological order.  The pandas sort is modelled by
insertion sort on the momentum field in descending order: the spec leaves
tie order arbitrary, and every property below is insensitive to it.
-/

namespace StockMomentum

/-- A per-ticker daily history: one ticker/dataframe item of the list built
by `load_history_data`.  `series` is the ordered `(date, close)` column pair
of the dataframe, strictly increasing by date. -/
structure HistoryRecord where
  ticker : String
  series : List (Nat × ℚ)
  deriving DecidableEq, Repr

/-- One element of the `metrics` list built by `calculate_metrics`. -/
structure MetricRow where
  ticker : String
  current_day : Nat
  current_price : ℚ
  momentum : ℚ
  moving_average : ℚ
  deriving DecidableEq, Repr

/-- The `params` dict passed to `calculate_metrics`: whole-month counts,
`momentum_days // 30` and `ma_days // 30` in `main_app`. -/
structure Params where
  momentum : Nat
  moving_average : Nat
  deriving DecidableEq, Repr

/-- The close column of the dataframe of a record. -/
def closes (r : HistoryRecord) : List ℚ := r.series.map Prod.snd

/-- The pandas tail operation `df.tail(n)`: the trailing `n` rows (all rows
when fewer than `n` exist). -/
def tailRows (n : Nat) (xs : List ℚ) : List ℚ := xs.drop (xs.length - n)

/-- The last entry of the rolling mean, `rolling(window=w).mean().iloc[-1]`:
the mean of the trailing `w` elements.  (In `calculate_metrics` it is applied to a series of length
exactly `w`, so it is the mean of the whole series.) -/
def rollingMeanLast (w : Nat) (xs : List ℚ) : ℚ := (tailRows w xs).sum / (w : ℚ)

/-- The body of the per-ticker loop of `calculate_metrics`: `none` models the
`continue` on insufficient history and the except-and-skip on a raised
per-ticker exception.  The two `= 0` branches model the exceptions pandas
raises for a zero-length window (`iloc[-1]` on an empty tail, and
`rolling` with window 0), which the handler of the loop turns into a skip; the UI only
ever supplies windows of at least 21 days. -/
def computeMetricRow (tail_momentum tail_moving_average : Nat)
    (item : HistoryRecord) : Option MetricRow :=
  let cs := closes item
  let momentum_closes := tailRows tail_momentum cs
  if momentum_closes.length < tail_momentum then none
  else if tail_momentum = 0 then none
  else
    let momentum := momentum_closes.getLast?.getD 0 / momentum_closes.head?.getD 0 - 1
    let ma_closes := tailRows tail_moving_average cs
    if ma_closes.length < tail_moving_average then none
    else if tail_moving_average = 0 then none
    else some
      { ticker := item.ticker
        current_day := (item.series.map Prod.fst).getLast?.getD 0
        current_price := cs.getLast?.getD 0
        momentum := momentum
        moving_average := rollingMeanLast tail_moving_average ma_closes }

/-- The Metric Engine `calculate_metrics(history_data, params)`: window
lengths are
`21 * params.momentum` and `21 * params.moving_average` trading days;
the surviving rows are collected in input order. -/
def calculate_metrics (history_data : List HistoryRecord) (params : Params) :
    List MetricRow :=
  history_data.filterMap
    (computeMetricRow (21 * params.momentum) (21 * params.moving_average))

/-- Descending-momentum order used by `sort_values` on the momentum column
with ascending False. -/
def momentumGE (a b : MetricRow) : Prop := b.momentum ≤ a.momentum

instance : DecidableRel momentumGE :=
  fun a b => inferInstanceAs (Decidable (b.momentum ≤ a.momentum))

instance : IsTotal MetricRow momentumGE :=
  ⟨fun a b => le_total b.momentum a.momentum⟩

instance : IsTrans MetricRow momentumGE :=
  ⟨fun _ _ _ hab hbc => le_trans hbc hab⟩

/-- The filter stage,
`metrics_df[metrics_df.current_price > metrics_df.moving_average]`. -/
def metricsFilter (metrics_df : List MetricRow) : List MetricRow :=
  metrics_df.filter (fun row => decide (row.moving_average < row.current_price))

/-- The sort stage, `sort_values` by momentum with ascending False; ties are
broken arbitrarily per the spec, modelled here by insertion sort. -/
def metricsSorted (metrics_filter : List MetricRow) : List MetricRow :=
  List.insertionSort momentumGE metrics_filter

/-- The ranker of `main_app`: filter, sort, `head(wallet_size)`. -/
def rankPortfolio (metrics_df : List MetricRow) (wallet_size : Nat) :
    List MetricRow :=
  (metricsSorted (metricsFilter metrics_df)).take wallet_size

/-- The whole core pipeline, Metric Engine then Ranker. -/
def pipeline (history_data : List HistoryRecord) (params : Params)
    (wallet_size : Nat) : List MetricRow :=
  rankPortfolio (calculate_metrics history_data params) wallet_size

/-! ### Helper lemmas about the Metric Engine -/

lemma tailRows_length (n : Nat) (xs : List ℚ) :
    (tailRows n xs).length = min n xs.length := by
  simp [tailRows]
  omega

lemma tailRows_of_length_le {n : Nat} {xs : List ℚ} (h : xs.length ≤ n) :
    tailRows n xs = xs := by
  simp [tailRows, Nat.sub_eq_zero_of_le h]

lemma tailRows_head? {n : Nat} {xs : List ℚ} :
    (tailRows n xs).head? = xs.get? (xs.length - n) := by
  rw [tailRows, ← List.get?_zero, List.get?_drop, Nat.add_zero]

lemma tailRows_getLast? {n : Nat} {xs : List ℚ} (h1 : 1 ≤ n)
    (h2 : n ≤ xs.length) : (tailRows n xs).getLast? = xs.getLast? := by
  rw [List.getLast?_eq_get?, List.getLast?_eq_get?, tailRows, List.get?_drop,
    List.length_drop]
  congr 1
  omega

/-- What a successfully emitted metric row contains, and what its emission
implies about the window lengths.  Everything later needs only this
characterisation of `computeMetricRow`. -/
lemma computeMetricRow_eq_some {tm tma : Nat} {r : HistoryRecord}
    {row : MetricRow} (h : computeMetricRow tm tma r = some row) :
    1 ≤ tm ∧ tm ≤ (closes r).length ∧ 1 ≤ tma ∧ tma ≤ (closes r).length ∧
    row.ticker = r.ticker ∧
    row.current_day = (r.series.map Prod.fst).getLast?.getD 0 ∧
    row.current_price = (closes r).getLast?.getD 0 ∧
    row.momentum = (closes r).getLast?.getD 0 /
      ((closes r).get? ((closes r).length - tm)).getD 0 - 1 ∧
    row.moving_average = (tailRows tma (closes r)).sum / (tma : ℚ) := by
  unfold computeMetricRow at h
  simp only [tailRows_length] at h
  split_ifs at h with hlen1 hz1 hlen2 hz2
  have htm1 : 1 ≤ tm := Nat.one_le_iff_ne_zero.mpr hz1
  have htma1 : 1 ≤ tma := Nat.one_le_iff_ne_zero.mpr hz2
  have htm2 : tm ≤ (closes r).length := by omega
  have htma2 : tma ≤ (closes r).length := by omega
  refine ⟨htm1, htm2, htma1, htma2, ?_⟩
  have hrow := (Option.some_inj.mp h).symm
  subst hrow
  refine ⟨rfl, rfl, rfl, ?_, ?_⟩
  · rw [tailRows_getLast? htm1 htm2, tailRows_head?]
  · have hfix : tailRows tma (tailRows tma (closes r)) = tailRows tma (closes r) := by
      apply tailRows_of_length_le
      rw [tailRows_length]
      omega
    simp [rollingMeanLast, hfix]

/-- A row is emitted exactly when both (nonzero) windows fit in the history. -/
lemma computeMetricRow_isSome_iff {tm tma : Nat} {r : HistoryRecord}
    (htm : 1 ≤ tm) (htma : 1 ≤ tma) :
    (∃ row, computeMetricRow tm tma r = some row) ↔
      max tm tma ≤ (closes r).length := by
  constructor
  · rintro ⟨row, h⟩
    obtain ⟨_, h2, _, h4, _⟩ := computeMetricRow_eq_some h
    omega
  · intro hmax
    unfold computeMetricRow
    simp only [tailRows_length]
    rw [if_neg (by omega), if_neg (by omega), if_neg (by omega), if_neg (by omega)]
    exact ⟨_, rfl⟩

lemma mem_calculate_metrics {history_data : List HistoryRecord} {params : Params}
    {row : MetricRow} (h : row ∈ calculate_metrics history_data params) :
    ∃ r ∈ history_data,
      computeMetricRow (21 * params.momentum) (21 * params.moving_average) r =
        some row := by
  simpa [calculate_metrics] using List.mem_filterMap.mp h

lemma mem_rankPortfolio {metrics_df : List MetricRow} {wallet_size : Nat}
    {row : MetricRow} (h : row ∈ rankPortfolio metrics_df wallet_size) :
    row ∈ metrics_df ∧ row.moving_average < row.current_price := by
  have h1 : row ∈ metricsSorted (metricsFilter metrics_df) :=
    (List.take_sublist _ _).mem h
  have h2 : row ∈ metricsFilter metrics_df :=
    (List.perm_insertionSort momentumGE _).mem_iff.mp h1
  have h3 := List.mem_filter.mp h2
  exact ⟨h3.1, by simpa using h3.2⟩

/-! ### Concrete fixtures used by the witnesses and counterexamples -/

/-- A history with exactly 21 observations, closes 1, 2, ..., 21. -/
def rW : HistoryRecord :=
  ⟨"AAA.SA", [(0, 1), (1, 2), (2, 3), (3, 4), (4, 5), (5, 6), (6, 7), (7, 8),
    (8, 9), (9, 10), (10, 11), (11, 12), (12, 13), (13, 14), (14, 15),
    (15, 16), (16, 17), (17, 18), (18, 19), (19, 20), (20, 21)]⟩

/-- A history with 20 observations, one short of a 21-day window. -/
def rShort : HistoryRecord :=
  ⟨"SHT.SA", [(0, 1), (1, 2), (2, 3), (3, 4), (4, 5), (5, 6), (6, 7), (7, 8),
    (8, 9), (9, 10), (10, 11), (11, 12), (12, 13), (13, 14), (14, 15),
    (15, 16), (16, 17), (17, 18), (18, 19), (19, 20)]⟩

/-- A history with exactly 21 observations, constant close 1. -/
def rBoundary : HistoryRecord :=
  ⟨"BBB.SA", [(0, 1), (1, 1), (2, 1), (3, 1), (4, 1), (5, 1), (6, 1), (7, 1),
    (8, 1), (9, 1), (10, 1), (11, 1), (12, 1), (13, 1), (14, 1), (15, 1),
    (16, 1), (17, 1), (18, 1), (19, 1), (20, 1)]⟩

/-- The metric row `computeMetricRow 21 21 rW` produces. -/
def rowW : MetricRow :=
  ⟨"AAA.SA", 20, 21, 20, 11⟩

/-- Above its moving average, momentum 10%. -/
def rowA : MetricRow := ⟨"A", 0, 10, 1/10, 9⟩

/-- Below its moving average, momentum 5%. -/
def rowB : MetricRow := ⟨"B", 0, 10, 1/20, 11⟩

/-- Above its moving average, momentum 20%. -/
def rowC : MetricRow := ⟨"C", 0, 10, 1/5, 9⟩

/-- Price exactly equal to its moving average. -/
def rowEq : MetricRow := ⟨"E", 0, 10, 3/10, 10⟩

/-! ### The claims -/

/-- C1: for every history record with at least `momentum_window`
(`= 21 × whole months requested`) observations, the momentum the Metric
Engine emits for it equals the last close divided by the close
`momentum_window` observations before the end, minus 1
(`close[-1] / close[-momentum_window] - 1`): a plain total return, not
annualized and not a log-return. -/
theorem momentum_is_total_return (params : Params) (r : HistoryRecord)
    (row : MetricRow) (hobs : 21 * params.momentum ≤ (closes r).length)
    (hemit : computeMetricRow (21 * params.momentum)
      (21 * params.moving_average) r = some row) :
    row.momentum =
      ((closes r).get? ((closes r).length - 1)).getD 0 /
        ((closes r).get? ((closes r).length - 21 * params.momentum)).getD 0
        - 1 := by
  obtain ⟨-, -, -, -, -, -, -, hmom, -⟩ := computeMetricRow_eq_some hemit
  rw [hmom, List.getLast?_eq_get?]

/-- Witness for C1 at a concrete 21-observation series with closes
1, ..., 21: the emitted momentum is `21 / 1 - 1 = 20`. -/
theorem momentum_is_total_return_witness :
    rowW.momentum =
      ((closes rW).get? ((closes rW).length - 1)).getD 0 /
        ((closes rW).get? ((closes rW).length - 21 * (1 : Nat))).getD 0
        - 1 := by
  have hemit : computeMetricRow (21 * (1 : Nat)) (21 * (1 : Nat)) rW =
      some rowW := by
    norm_num [computeMetricRow, rW, rowW, closes, tailRows, rollingMeanLast]
  exact momentum_is_total_return ⟨1, 1⟩ rW rowW (by decide) hemit

/-- C2: for every history record with at least `ma_window` observations, the
moving average the Metric Engine emits for it equals the arithmetic mean of
the closes of the trailing `ma_window` observations (a simple moving
average, not exponential). -/
theorem moving_average_is_mean (params : Params) (r : HistoryRecord)
    (row : MetricRow) (hobs : 21 * params.moving_average ≤ (closes r).length)
    (hemit : computeMetricRow (21 * params.momentum)
      (21 * params.moving_average) r = some row) :
    row.moving_average =
      ((closes r).drop ((closes r).length - 21 * params.moving_average)).sum /
        (((closes r).drop
          ((closes r).length - 21 * params.moving_average)).length : ℚ) := by
  obtain ⟨-, -, -, -, -, -, -, -, hma⟩ := computeMetricRow_eq_some hemit
  rw [hma]
  have hl : ((closes r).drop
      ((closes r).length - 21 * params.moving_average)).length =
      21 * params.moving_average := by
    rw [List.length_drop]
    omega
  rw [hl]
  rfl

/-- Witness for C2 at the same concrete series: the emitted moving average
is `(1 + 2 + ... + 21) / 21 = 11`. -/
theorem moving_average_is_mean_witness :
    rowW.moving_average =
      ((closes rW).drop ((closes rW).length - 21 * (1 : Nat))).sum /
        (((closes rW).drop
          ((closes rW).length - 21 * (1 : Nat))).length : ℚ) := by
  have hemit : computeMetricRow (21 * (1 : Nat)) (21 * (1 : Nat)) rW =
      some rowW := by
    norm_num [computeMetricRow, rW, rowW, closes, tailRows, rollingMeanLast]
  exact moving_average_is_mean ⟨1, 1⟩ rW rowW (by decide) hemit

/-- C5: for every metric-row collection and every wallet size, the ranked
portfolio is sorted by momentum in descending order: every pair of rows in
output order (in particular every adjacent pair) satisfies
`momentum[i] ≥ momentum[i+1]`. -/
theorem portfolio_sorted_descending (metrics_df : List MetricRow)
    (wallet_size : Nat) :
    ((rankPortfolio metrics_df wallet_size).map MetricRow.momentum).Pairwise
      (fun a b => b ≤ a) := by
  have hs : List.Sorted momentumGE (metricsSorted (metricsFilter metrics_df)) :=
    List.sorted_insertionSort momentumGE _
  have ht : (rankPortfolio metrics_df wallet_size).Pairwise momentumGE :=
    List.Pairwise.sublist (List.take_sublist _ _) hs
  exact ht.map MetricRow.momentum (fun _ _ h => h)

/-- C8: the Metric Engine and the Ranker are total on every input shape: an
empty history collection yields an empty metric-row collection, which yields
an empty ranked portfolio, and an empty filter result yields an empty
portfolio as a normal outcome. -/
theorem empty_inputs_give_empty_outputs (params : Params) (wallet_size : Nat) :
    calculate_metrics [] params = [] ∧
    rankPortfolio (calculate_metrics [] params) wallet_size = [] ∧
    rankPortfolio [] wallet_size = [] ∧
    ∀ metrics_df : List MetricRow, metricsFilter metrics_df = [] →
      rankPortfolio metrics_df wallet_size = [] := by
  refine ⟨rfl, ?_, ?_, fun metrics_df hf => ?_⟩
  · simp [rankPortfolio, metricsSorted, metricsFilter, calculate_metrics]
  · simp [rankPortfolio, metricsSorted, metricsFilter]
  · simp [rankPortfolio, metricsSorted, hf]

/-- Witness for C8: a collection whose only row sits exactly at its moving
average filters to nothing and ranks to an empty portfolio. -/
theorem empty_inputs_give_empty_outputs_witness :
    rankPortfolio [rowEq] 5 = [] :=
  (empty_inputs_give_empty_outputs ⟨6, 6⟩ 5).2.2.2 [rowEq]
    (by norm_num [metricsFilter, rowEq])

/-- C9: the pipeline is deterministic: two runs on an identical history
collection with identical window parameters and wallet size produce
identical ranked portfolios. -/
theorem pipeline_deterministic (h1 h2 : List HistoryRecord) (p1 p2 : Params)
    (w1 w2 : Nat) (hh : h1 = h2) (hp : p1 = p2) (hw : w1 = w2) :
    pipeline h1 p1 w1 = pipeline h2 p2 w2 := by
  subst hh
  subst hp
  subst hw
  rfl

/-- Witness for C9 at a concrete run. -/
theorem pipeline_deterministic_witness :
    pipeline [rW] ⟨1, 1⟩ 5 = pipeline [rW] ⟨1, 1⟩ 5 :=
  pipeline_deterministic [rW] [rW] ⟨1, 1⟩ ⟨1, 1⟩ 5 5 rfl rfl rfl

/-- C10: the Ranker never alters row contents: every row of the ranked
portfolio is one of the input metric rows, all fields unchanged — filtering,
sorting and truncation only select and reorder. -/
theorem portfolio_rows_unchanged (metrics_df : List MetricRow)
    (wallet_size : Nat) (row : MetricRow)
    (h : row ∈ rankPortfolio metrics_df wallet_size) :
    row ∈ metrics_df :=
  (mem_rankPortfolio h).1

/-- Witness for C10: the top row of a concrete two-row ranking is one of the
two input rows. -/
theorem portfolio_rows_unchanged_witness :
    rowA ∈ [rowB, rowA] :=
  portfolio_rows_unchanged [rowB, rowA] 1 rowA
    (by norm_num [rankPortfolio, metricsFilter, metricsSorted, momentumGE,
      rowA, rowB, List.insertionSort, List.orderedInsert])

/-- C3: with the (nonzero whole-month) windows of the UI, a metric row is
emitted for a history record exactly when the record has at least
`max(momentum_window, ma_window)` observations; the output row count never
exceeds the input record count; and a record with fewer observations (its
ticker being unique in the run) never has its ticker in the ranked
portfolio. -/
theorem metric_row_emission_iff (history_data : List HistoryRecord)
    (params : Params) (wallet_size : Nat) (hm : 1 ≤ params.momentum)
    (hma : 1 ≤ params.moving_average) :
    (calculate_metrics history_data params).length ≤ history_data.length ∧
    (∀ r : HistoryRecord,
      (∃ row, computeMetricRow (21 * params.momentum)
        (21 * params.moving_average) r = some row) ↔
      max (21 * params.momentum) (21 * params.moving_average) ≤
        (closes r).length) ∧
    (∀ r ∈ history_data,
      (closes r).length <
        max (21 * params.momentum) (21 * params.moving_average) →
      (∀ r2 ∈ history_data, r2.ticker = r.ticker → r2 = r) →
      ∀ row ∈ pipeline history_data params wallet_size,
        row.ticker ≠ r.ticker) := by
  refine ⟨List.length_filterMap_le _ _, fun r => ?_, ?_⟩
  · exact computeMetricRow_isSome_iff (by omega) (by omega)
  · intro r hr hlen huniq row hrow hticker
    obtain ⟨hmem, -⟩ := mem_rankPortfolio hrow
    obtain ⟨r2, hr2, hemit⟩ := mem_calculate_metrics hmem
    obtain ⟨-, h2, -, h4, hticker2, -⟩ := computeMetricRow_eq_some hemit
    have : r2 = r := huniq r2 hr2 (hticker2.symm.trans hticker)
    subst this
    omega

/-- Witness for C3 at a concrete one-record run. -/
theorem metric_row_emission_iff_witness :
    (calculate_metrics [rW] ⟨1, 1⟩).length ≤ [rW].length :=
  (metric_row_emission_iff [rW] ⟨1, 1⟩ 5 (by decide) (by decide)).1

/-- C4: the admission filter of the Ranker is strict: a row is kept exactly when
`current_price > moving_average`, and a row whose current price equals its
moving average is excluded from the ranked portfolio. -/
theorem filter_is_strict (metrics_df : List MetricRow) (wallet_size : Nat)
    (row : MetricRow) (heq : row.current_price = row.moving_average) :
    row ∉ rankPortfolio metrics_df wallet_size ∧
    ∀ x : MetricRow, x ∈ metricsFilter metrics_df ↔
      x ∈ metrics_df ∧ x.moving_average < x.current_price := by
  constructor
  · intro hmem
    have hlt := (mem_rankPortfolio hmem).2
    rw [heq] at hlt
    exact lt_irrefl _ hlt
  · intro x
    simp [metricsFilter, List.mem_filter]

/-- Witness for C4: the at-the-average row of a concrete collection is
absent from its ranked portfolio. -/
theorem filter_is_strict_witness :
    rowEq ∉ rankPortfolio [rowEq, rowA] 5 :=
  (filter_is_strict [rowEq, rowA] 5 rowEq rfl).1

/-- C6: for every metric-row collection and every wallet size of at least 1,
the length of the ranked portfolio is the minimum of the wallet size and the
number of rows passing the `current_price > moving_average` filter. -/
theorem portfolio_length_min (metrics_df : List MetricRow)
    (wallet_size : Nat) (hw : 1 ≤ wallet_size) :
    (rankPortfolio metrics_df wallet_size).length =
      min wallet_size (metricsFilter metrics_df).length := by
  rw [rankPortfolio, List.length_take, metricsSorted,
    List.length_insertionSort]

/-- Witness for C6: three rows, two passing the filter, wallet size 2. -/
theorem portfolio_length_min_witness :
    (rankPortfolio [rowA, rowB, rowC] 2).length =
      min 2 (metricsFilter [rowA, rowB, rowC]).length :=
  portfolio_length_min [rowA, rowB, rowC] 2 (by decide)

/-- C7 counterexample: a record with exactly `momentum_window = 21 × 1`
observations is NOT included when `ma_window = 21 × 2` exceeds the history
length — inclusion is not independent of `ma_window`: `calculate_metrics`
emits no row for it. -/
theorem boundary_inclusion_counterexample :
    rBoundary.series.length = 21 * (1 : Nat) ∧
    calculate_metrics [rBoundary] ⟨1, 2⟩ = [] := by
  constructor
  · decide
  · norm_num [calculate_metrics, computeMetricRow, rBoundary, closes,
      tailRows, List.filterMap]

/-- C7 as amended: a ticker with exactly `momentum_window` observations is
included provided `ma_window ≤ momentum_window` (so that the history also
covers the moving-average window), and a ticker with
`momentum_window - 1` observations is excluded regardless of `ma_window`. -/
theorem boundary_inclusion_amended (params : Params) (r : HistoryRecord)
    (hm : 1 ≤ params.momentum) (hma : 1 ≤ params.moving_average) :
    (params.moving_average ≤ params.momentum →
      (closes r).length = 21 * params.momentum →
      ∃ row, computeMetricRow (21 * params.momentum)
        (21 * params.moving_average) r = some row) ∧
    ((closes r).length = 21 * params.momentum - 1 →
      computeMetricRow (21 * params.momentum)
        (21 * params.moving_average) r = none) := by
  constructor
  · intro hle hlen
    exact (computeMetricRow_isSome_iff (by omega) (by omega)).mpr (by omega)
  · intro hlen
    unfold computeMetricRow
    simp only [tailRows_length]
    rw [if_pos (by omega)]

/-- Witness for the amended C7: with both windows one month, a 21-day
history is included and a 20-day history is excluded. -/
theorem boundary_inclusion_amended_witness :
    (∃ row, computeMetricRow (21 * (1 : Nat)) (21 * (1 : Nat)) rW = some row) ∧
    computeMetricRow (21 * (1 : Nat)) (21 * (1 : Nat)) rShort = none :=
  ⟨(boundary_inclusion_amended ⟨1, 1⟩ rW (by decide) (by decide)).1
      (by decide) (by decide),
   (boundary_inclusion_amended ⟨1, 1⟩ rShort (by decide) (by decide)).2
      (by decide)⟩

end StockMomentum
